import Mathlib

/-!
Verification of the MiniDrone BLE adapter (`src/lib/MiniDroneBtAdapter.js`)
and the `Drone` driver class against its natural-language specification.

The JavaScript source is shallowly embedded: the adapter instance becomes an
explicit `AdapterState` record, Node `Buffer`s become `List Nat` of bytes,
every `this.emit(...)` becomes an element of a returned event list, every
frame handed to the BLE characteristic `write` primitive becomes an element
of a returned frame list, and every `Logger` call becomes a `LogEntry`.
Fallible buffer reads (Node throws a `RangeError` on an out-of-range read)
are modelled in the `Option` monad: `none` is a thrown exception.

IEEE-754 float payloads are carried as their raw 32-bit little-endian bit
patterns (an injective representation; the only float the source ever writes
with a known value is the constant `0.0`, whose bit pattern is `0`).
-/

set_option maxRecDepth 100000

namespace MiniDrone

/-- The three outbound BLE channels: `FLIGHT_PARAMS_KEY = 'fa0a'`,
`COMMAND_KEY = 'fa0b'`, `EMERGENCY_KEY = 'fa0c'`. -/
inductive ChannelKey where
  | flightParamsKey
  | commandKey
  | emergencyKey
deriving DecidableEq

/-- Dynamic JavaScript values stored in the adapter's mutable fields
(`batteryLevel` starts as the string `'Unknown'`, `flightStatus` starts as
`null` and can become `undefined` via an out-of-range enum lookup,
`alertStatus` starts as the number `0`). -/
inductive JsVal where
  | nullv
  | undefv
  | numv (n : Nat)
  | strv (s : String)
deriving DecidableEq

/-- The flight-parameter cache `{roll, pitch, yaw, altitude}`. -/
structure FlightParams where
  roll : Int
  pitch : Int
  yaw : Int
  altitude : Int
deriving DecidableEq

/-- The mutable state of a `MiniDroneBtAdapter` instance.
`charsPresent` models `this.characteristics.length !== 0`. -/
structure AdapterState where
  charsPresent : Bool
  batteryLevel : JsVal
  stepsFp : Nat
  stepsCmd : Nat
  stepsEmg : Nat
  flightStatus : JsVal
  alertStatus : JsVal
  flightParams : FlightParams
deriving DecidableEq

/-- The adapter state right after the constructor runs
(src/lib/MiniDroneBtAdapter.js:85). -/
def initialState : AdapterState :=
  { charsPresent := false
    batteryLevel := .strv "Unknown"
    stepsFp := 0
    stepsCmd := 0
    stepsEmg := 0
    flightStatus := .nullv
    alertStatus := .numv 0
    flightParams := ⟨0, 0, 0, 0⟩ }

/-- `setupPeripheral` storing the discovered characteristics
(src/lib/MiniDroneBtAdapter.js:417). -/
def attachCharacteristics (s : AdapterState) : AdapterState :=
  { s with charsPresent := true }

/-- Read `this.steps[uuid]`. -/
def chanStep (s : AdapterState) : ChannelKey → Nat
  | .flightParamsKey => s.stepsFp
  | .commandKey => s.stepsCmd
  | .emergencyKey => s.stepsEmg

/-- Assign `this.steps[uuid] = n`. -/
def setChanStep (s : AdapterState) : ChannelKey → Nat → AdapterState
  | .flightParamsKey, n => { s with stepsFp := n }
  | .commandKey, n => { s with stepsCmd := n }
  | .emergencyKey, n => { s with stepsEmg := n }

/-- One outbound frame handed to `characteristic.write(buffer, true)`. -/
structure Frame where
  channel : ChannelKey
  bytes : List Nat
deriving DecidableEq

/-- Events fired with `this.emit(...)` on the adapter. Float arguments are
carried as raw 32-bit bit patterns. -/
inductive Event where
  | flightParamChange (p : FlightParams)
  | batteryStatusChange (v : JsVal)
  | flightStatusChange (v : JsVal)
  | alertStateChange (v : JsVal)
  | dronePositionChange (x y z psi ts : Nat)
  | droneSpeedChange (x y z ts : Nat)
  | maxAltitudeChange (bits : Nat)
  | maxTiltChange (bits : Nat)
deriving DecidableEq

/-- `Logger` lines, abstracted to their template and interpolated data. -/
inductive LogEntry where
  | dataTypeMissing (dataType project msgClass command : Nat)
  | commonDebug
  | ardrone3Info
  | minidroneDebug
  | runIdChangedDebug
  | packetImplMissing (dataType project msgClass command : Nat)
  | projectMissing (dataType project msgClass command : Nat)
  | batteryLevelDebug (b : Nat)
  | flightStatusDebug (v : JsVal) (raw : Nat)
  | alertStateDebug (v : JsVal) (raw : Nat)
  | autoTakeOffDebug (v : Nat)
  | positionDebug (x y z psi ts : Nat)
  | speedDebug (x y z ts : Nat)
  | maxVerticalSpeedChangedInfo (c mn mx : Nat)
  | maxRotationSpeedChangedInfo (c mn mx : Nat)
  | pictureStateDebug (st er : Option String)
  | maxAltitudeChangedInfo (c mn mx : Nat)
  | maxTiltChangedInfo (c mn mx : Nat)
deriving DecidableEq

/-! ### Protocol constants (src/lib/MiniDroneBtAdapter.js:7-69) -/

def MD_CLASSES_PILOTING : Nat := 0x00
def MD_CLASSES_SPEED_SETTINGS : Nat := 0x01
def MD_CLASSES_ANIMATION : Nat := 0x04
def MD_CLASSES_MEDIA_RECORD : Nat := 0x06
def MD_CLASSES_PILOTING_SETTINGS : Nat := 0x08
def MD_METHODS_TRIM : Nat := 0x00
def MD_METHODS_TAKEOFF : Nat := 0x01
def MD_METHODS_LAND : Nat := 0x03
def MD_METHODS_EMERGENCY : Nat := 0x04
def MD_METHODS_PICTURE : Nat := 0x01
def MD_METHODS_FLIP : Nat := 0x00
def MD_METHODS_MAX_ALTITUDE : Nat := 0x00
def MD_METHODS_MAX_TILT : Nat := 0x01
def MD_DATA_TYPES_DATA : Nat := 0x02
def MD_DEVICE_TYPE : Nat := 0x02

def MANUFACTURER_SERIALS : List String :=
  ["4300cf1900090100", "4300cf1909090100", "4300cf1907090100"]

def DRONE_PREFIXES : List String :=
  ["RS_", "Mars_", "Travis_", "Maclan_", "Mambo_", "Blaze_", "NewZ_"]

def FLIGHT_STATUSES : List String :=
  ["landed", "taking off", "hovering", "flying",
   "landing", "emergency", "rolling", "initializing"]

def ALERT_STATE_CHANGED : List String :=
  ["none", "user", "cut_out", "critical_battery", "low_battery"]

def pictureState : List String := ["ready", "busy", "notAvailable"]

def pictureStateError : List String :=
  ["ok", "unknown", "cameraKO", "memoryFull", "lowBattery"]

/-- The `animations` lookup object (src/lib/MiniDroneBtAdapter.js:35);
a JS property read on it yields `undefined` for any other key. -/
def animations (a : String) : Option Nat :=
  if a = "flipFront" then some 0x00
  else if a = "flipBack" then some 0x01
  else if a = "flipRight" then some 0x02
  else if a = "flipLeft" then some 0x03
  else none

/-! ### Node buffer primitives -/

/-- The two-byte little-endian two's-complement splice a successful
`writeInt16LE` performs at `off`. -/
def setInt16LE (buf : List Nat) (v : Int) (off : Nat) : List Nat :=
  let w := (v % 65536).toNat
  (buf.set off (w % 256)).set (off + 1) (w / 256)

/-- `buffer.writeInt16LE(v, off)`: Node's `checkInt` rejects values outside
[-32768, 32767] with a thrown `TypeError` (modelled as `none`); in range the
two bytes are spliced little-endian. -/
def writeInt16LE (buf : List Nat) (v : Int) (off : Nat) : Option (List Nat) :=
  if v < -32768 ∨ 32767 < v then none
  else some (setInt16LE buf v off)

/-- `buffer.writeFloatLE(x, off)` at the bit level: writes the four bytes of
the IEEE-754 bit pattern `bits` of `x` little-endian at `off`. -/
def writeFloatLEBits (buf : List Nat) (bits : Nat) (off : Nat) : List Nat :=
  ((((buf.set off (bits % 256)).set (off + 1) (bits / 256 % 256)).set
      (off + 2) (bits / 65536 % 256)).set (off + 3) (bits / 16777216 % 256))

/-- `data.readUInt8(off)`; `none` models the thrown `RangeError`. -/
def readUInt8 (data : List Nat) (off : Nat) : Option Nat :=
  data.get? off

/-- `data.readUInt16LE(off)`. -/
def readUInt16LE (data : List Nat) (off : Nat) : Option Nat := do
  let a ← data.get? off
  let b ← data.get? (off + 1)
  pure (a + 256 * b)

/-- `data.readFloatLE(off)` at the bit level (returns the 32-bit LE word). -/
def readFloatLEBits (data : List Nat) (off : Nat) : Option Nat := do
  let a ← data.get? off
  let b ← data.get? (off + 1)
  let c ← data.get? (off + 2)
  let d ← data.get? (off + 3)
  pure (a + 256 * b + 65536 * c + 16777216 * d)

/-! ### Outbound path: `write`, `createBuffer` and the convenience writers -/

/-- `write(uuid, buffer)` (src/lib/MiniDroneBtAdapter.js:143): warn and skip
when not connected; otherwise reset the channel's step counter once it has
reached 255, then hand the (already built) buffer to the characteristic. -/
def write (s : AdapterState) (uuid : ChannelKey) (buffer : List Nat) :
    AdapterState × List Frame :=
  if s.charsPresent = false then (s, [])
  else
    let s' := if 255 ≤ chanStep s uuid then setChanStep s uuid 0 else s
    (s', [⟨uuid, buffer⟩])

/-- `createBuffer(uuid, args)` (src/lib/MiniDroneBtAdapter.js:163): builds
`[MD_DATA_TYPES.DATA, ++this.steps[uuid] & 0xFF, MD_DEVICE_TYPE, ...args]`,
incrementing the channel's counter as a side effect. -/
def createBuffer (s : AdapterState) (uuid : ChannelKey) (args : List Nat) :
    AdapterState × List Nat :=
  let newStep := chanStep s uuid + 1
  (setChanStep s uuid newStep,
   [MD_DATA_TYPES_DATA, newStep % 256, MD_DEVICE_TYPE] ++ args)

/-- Shared shape of the `createBuffer`-then-`write` convenience methods. -/
def createBufferAndWrite (s : AdapterState) (uuid : ChannelKey)
    (args : List Nat) : AdapterState × List Frame × List Event :=
  let r := createBuffer s uuid args
  let w := write r.1 uuid r.2
  (w.1, w.2, [])

/-- `writeTrim()` (src/lib/MiniDroneBtAdapter.js:201). -/
def writeTrim (s : AdapterState) : AdapterState × List Frame × List Event :=
  createBufferAndWrite s .commandKey [MD_CLASSES_PILOTING, MD_METHODS_TRIM, 0x00]

/-- `writeTakeoff()` (src/lib/MiniDroneBtAdapter.js:211). -/
def writeTakeoff (s : AdapterState) : AdapterState × List Frame × List Event :=
  createBufferAndWrite s .commandKey [MD_CLASSES_PILOTING, MD_METHODS_TAKEOFF, 0x00]

/-- `writeLand()` (src/lib/MiniDroneBtAdapter.js:221). -/
def writeLand (s : AdapterState) : AdapterState × List Frame × List Event :=
  createBufferAndWrite s .commandKey [MD_CLASSES_PILOTING, MD_METHODS_LAND, 0x00]

/-- `writeEmergency()` (src/lib/MiniDroneBtAdapter.js:231). -/
def writeEmergency (s : AdapterState) : AdapterState × List Frame × List Event :=
  createBufferAndWrite s .emergencyKey [MD_CLASSES_PILOTING, MD_METHODS_EMERGENCY, 0x00]

/-- `writeTakePicture()` (src/lib/MiniDroneBtAdapter.js:241). -/
def writeTakePicture (s : AdapterState) : AdapterState × List Frame × List Event :=
  createBufferAndWrite s .commandKey [MD_CLASSES_MEDIA_RECORD, MD_METHODS_PICTURE, 0x00]

/-- `writeAnimation(animation)` (src/lib/MiniDroneBtAdapter.js:252): bail out
when the name is not a key of `animations`. -/
def writeAnimation (s : AdapterState) (animation : String) :
    AdapterState × List Frame × List Event :=
  match animations animation with
  | none => (s, [], [])
  | some code =>
      createBufferAndWrite s .commandKey
        [MD_CLASSES_ANIMATION, MD_METHODS_FLIP, 0x00, code, 0x00, 0x00, 0x00]

/-- The 19-byte buffer built by `writeFlightParams`
(src/lib/MiniDroneBtAdapter.js:176-191), after `fill(0)` and the twelve
`writeInt16LE`/`writeFloatLE` calls, with `newStep` the already-incremented
flight-params step.  This models the successful write path with the raw
splice `setInt16LE`: on every claim's domain the range checks of
`writeInt16LE` pass — the step stays at most 255 while a transport is
attached (the only regime the flight-params claims quantify over), and the
axis values are within the caller contract [-100, 100] (§3 of the spec: the
core does not clamp; out-of-range params are a caller contract violation). -/
def flightParamsBuffer (newStep : Nat) (fp : FlightParams) : List Nat :=
  let b := List.replicate 19 0
  let b := setInt16LE b 2 0
  let b := setInt16LE b (newStep : Int) 1
  let b := setInt16LE b 2 2
  let b := setInt16LE b 0 3
  let b := setInt16LE b 2 4
  let b := setInt16LE b 0 5
  let b := setInt16LE b 1 6
  let b := setInt16LE b fp.roll 7
  let b := setInt16LE b fp.pitch 8
  let b := setInt16LE b fp.yaw 9
  let b := setInt16LE b fp.altitude 10
  writeFloatLEBits b 0 11

/-- `writeFlightParams(flightParams)` (src/lib/MiniDroneBtAdapter.js:175):
caches the params, increments the flight-params step while stamping it into
the buffer, writes on the flight-params channel and emits
`flightParamChange`. -/
def writeFlightParams (s : AdapterState) (flightParams : FlightParams) :
    AdapterState × List Frame × List Event :=
  let s := { s with flightParams := flightParams }
  let newStep := s.stepsFp + 1
  let s := { s with stepsFp := newStep }
  let buffer := flightParamsBuffer newStep flightParams
  let w := write s .flightParamsKey buffer
  (w.1, w.2, [.flightParamChange flightParams])

/-- The 19-byte buffer built by `writeMaxAltitude`
(src/lib/MiniDroneBtAdapter.js:269-278); `altitudeBits` is the IEEE-754 bit
pattern of the altitude argument.  `none` models the `TypeError` thrown by
`writeInt16LE`'s range check (reachable: the step stamp exceeds 32767 once
the flight-params counter, which the limit writers never reset, has been
driven past it); `writeFloatLE` has no integer range check. -/
def maxAltitudeBuffer (newStep : Nat) (altitudeBits : Nat) : Option (List Nat) := do
  let b := List.replicate 19 0
  let b ← writeInt16LE b 2 0
  let b ← writeInt16LE b (newStep : Int) 1
  let b ← writeInt16LE b 2 2
  let b ← writeInt16LE b (MD_CLASSES_PILOTING_SETTINGS : Int) 3
  let b ← writeInt16LE b (MD_METHODS_MAX_ALTITUDE : Int) 4
  let b ← writeInt16LE b 0 5
  let b := writeFloatLEBits b altitudeBits 6
  pure (writeFloatLEBits b 0 10)

/-- `writeMaxAltitude(altitude)` (src/lib/MiniDroneBtAdapter.js:268): note it
increments `this.steps[FLIGHT_PARAMS_KEY]` but writes on `COMMAND_KEY`.
The `++` increment happens while the step stamp's `writeInt16LE` arguments
are evaluated, so it persists even when that write throws; on a throw
(second component `none`) the exception propagates — nothing is written and
no event is emitted. -/
def writeMaxAltitude (s : AdapterState) (altitudeBits : Nat) :
    AdapterState × Option (List Frame × List Event) :=
  let newStep := s.stepsFp + 1
  let s := { s with stepsFp := newStep }
  match maxAltitudeBuffer newStep altitudeBits with
  | none => (s, none)
  | some buffer =>
      let w := write s .commandKey buffer
      (w.1, some (w.2, [.maxAltitudeChange altitudeBits]))

/-- The 19-byte buffer built by `writeMaxTilt`
(src/lib/MiniDroneBtAdapter.js:291-301); `none` as in `maxAltitudeBuffer`. -/
def maxTiltBuffer (newStep : Nat) (tiltBits : Nat) : Option (List Nat) := do
  let b := List.replicate 19 0
  let b ← writeInt16LE b 2 0
  let b ← writeInt16LE b (newStep : Int) 1
  let b ← writeInt16LE b 2 2
  let b ← writeInt16LE b (MD_CLASSES_PILOTING_SETTINGS : Int) 3
  let b ← writeInt16LE b (MD_METHODS_MAX_TILT : Int) 4
  let b ← writeInt16LE b 0 5
  let b := writeFloatLEBits b tiltBits 6
  pure (writeFloatLEBits b 0 10)

/-- `writeMaxTilt(tilt)` (src/lib/MiniDroneBtAdapter.js:290): also increments
`this.steps[FLIGHT_PARAMS_KEY]` while writing on `COMMAND_KEY`; throw
semantics as in `writeMaxAltitude`. -/
def writeMaxTilt (s : AdapterState) (tiltBits : Nat) :
    AdapterState × Option (List Frame × List Event) :=
  let newStep := s.stepsFp + 1
  let s := { s with stepsFp := newStep }
  match maxTiltBuffer newStep tiltBits with
  | none => (s, none)
  | some buffer =>
      let w := write s .commandKey buffer
      (w.1, some (w.2, [.maxTiltChange tiltBits]))

/-! ### Inbound path: `decodePacket` -/

/-- The `switch (dataType)` block (src/lib/MiniDroneBtAdapter.js:534): known
data types only hit commented-out debug lines; unknown ones log. -/
def dataTypeLog (dataType project msgClass command : Nat) : List LogEntry :=
  if dataType = 1 ∨ dataType = 2 ∨ dataType = 3 ∨ dataType = 4 then []
  else [.dataTypeMissing dataType project msgClass command]

/-- The nested `switch (project) / switch (msgClass) / switch (commandKey)`
dispatch of `decodePacket` (src/lib/MiniDroneBtAdapter.js:552-700), after the
five header bytes have been read. -/
def decodeDispatch (s : AdapterState) (data : List Nat)
    (dataType project msgClass commandKey : Nat) :
    Option (AdapterState × List Event × List LogEntry) :=
  if project = 0 then
    if msgClass = 5 then
      if commandKey = 1 then do
        let b ← readUInt8 data 6
        pure ({ s with batteryLevel := .numv b },
              [.batteryStatusChange (.numv b)],
              dataTypeLog dataType project msgClass commandKey ++ [.commonDebug, .batteryLevelDebug b])
      else
        some (s, [], dataTypeLog dataType project msgClass commandKey ++
          [.commonDebug, .packetImplMissing dataType project msgClass commandKey])
    else if msgClass = 30 then
      if commandKey = 0 then
        some (s, [], dataTypeLog dataType project msgClass commandKey ++ [.commonDebug, .runIdChangedDebug])
      else
        some (s, [], dataTypeLog dataType project msgClass commandKey ++
          [.commonDebug, .packetImplMissing dataType project msgClass commandKey])
    else
      some (s, [], dataTypeLog dataType project msgClass commandKey ++
        [.commonDebug, .packetImplMissing dataType project msgClass commandKey])
  else if project = 1 then
    some (s, [], dataTypeLog dataType project msgClass commandKey ++ [.ardrone3Info])
  else if project = 2 then
    if msgClass = 18 then
      if commandKey = 0 then do
        let posx ← readFloatLEBits data 6
        let posy ← readFloatLEBits data 10
        let posz ← readUInt16LE data 14
        let psi ← readUInt16LE data 16
        let ts ← readUInt16LE data 18
        pure (s, [.dronePositionChange posx posy posz psi ts],
              dataTypeLog dataType project msgClass commandKey ++ [.minidroneDebug, .positionDebug posx posy posz psi ts])
      else if commandKey = 1 then do
        let sx ← readFloatLEBits data 6
        let sy ← readFloatLEBits data 10
        let sz ← readFloatLEBits data 14
        let ts ← readUInt16LE data 18
        pure (s, [.droneSpeedChange sx sy sz ts],
              dataTypeLog dataType project msgClass commandKey ++ [.minidroneDebug, .speedDebug sx sy sz ts])
      else
        some (s, [], dataTypeLog dataType project msgClass commandKey ++
          [.minidroneDebug, .packetImplMissing dataType project msgClass commandKey])
    else if msgClass = 3 then
      if commandKey = 1 then do
        let idx ← readUInt8 data 6
        let v := match FLIGHT_STATUSES.get? idx with
          | some st => JsVal.strv st
          | none => JsVal.undefv
        pure ({ s with flightStatus := v }, [.flightStatusChange v],
              dataTypeLog dataType project msgClass commandKey ++ [.minidroneDebug, .flightStatusDebug v idx])
      else if commandKey = 2 then do
        let idx ← readUInt8 data 6
        let v := match ALERT_STATE_CHANGED.get? idx with
          | some st => JsVal.strv st
          | none => JsVal.undefv
        pure ({ s with alertStatus := v }, [.alertStateChange v],
              dataTypeLog dataType project msgClass commandKey ++ [.minidroneDebug, .alertStateDebug v idx])
      else if commandKey = 3 then do
        let v ← readUInt8 data 6
        pure (s, [], dataTypeLog dataType project msgClass commandKey ++ [.minidroneDebug, .autoTakeOffDebug v])
      else
        some (s, [], dataTypeLog dataType project msgClass commandKey ++
          [.minidroneDebug, .packetImplMissing dataType project msgClass commandKey])
    else if msgClass = 5 then
      if commandKey = 0 then do
        let c ← readFloatLEBits data 6
        let mn ← readFloatLEBits data 10
        let mx ← readFloatLEBits data 14
        pure (s, [], dataTypeLog dataType project msgClass commandKey ++ [.minidroneDebug, .maxVerticalSpeedChangedInfo c mn mx])
      else if commandKey = 1 then do
        let c ← readFloatLEBits data 6
        let mn ← readFloatLEBits data 10
        let mx ← readFloatLEBits data 14
        pure (s, [], dataTypeLog dataType project msgClass commandKey ++ [.minidroneDebug, .maxRotationSpeedChangedInfo c mn mx])
      else
        some (s, [], dataTypeLog dataType project msgClass commandKey ++
          [.minidroneDebug, .packetImplMissing dataType project msgClass commandKey])
    else if msgClass = 7 then
      if commandKey = 1 then do
        let st ← readUInt8 data 6
        let er ← readUInt8 data 7
        pure (s, [], dataTypeLog dataType project msgClass commandKey ++
          [.minidroneDebug, .pictureStateDebug (pictureState.get? st) (pictureStateError.get? er)])
      else
        some (s, [], dataTypeLog dataType project msgClass commandKey ++
          [.minidroneDebug, .packetImplMissing dataType project msgClass commandKey])
    else if msgClass = 9 then
      if commandKey = 0 then do
        let c ← readFloatLEBits data 6
        let mn ← readFloatLEBits data 10
        let mx ← readFloatLEBits data 14
        pure (s, [], dataTypeLog dataType project msgClass commandKey ++ [.minidroneDebug, .maxAltitudeChangedInfo c mn mx])
      else if commandKey = 1 then do
        let c ← readFloatLEBits data 6
        let mn ← readFloatLEBits data 10
        let mx ← readFloatLEBits data 14
        pure (s, [], dataTypeLog dataType project msgClass commandKey ++ [.minidroneDebug, .maxTiltChangedInfo c mn mx])
      else
        some (s, [], dataTypeLog dataType project msgClass commandKey ++
          [.minidroneDebug, .packetImplMissing dataType project msgClass commandKey])
    else
      some (s, [], dataTypeLog dataType project msgClass commandKey ++
        [.minidroneDebug, .packetImplMissing dataType project msgClass commandKey])
  else
    some (s, [], dataTypeLog dataType project msgClass commandKey ++
      [.projectMissing dataType project msgClass commandKey])

/-- `decodePacket(data)` (src/lib/MiniDroneBtAdapter.js:510): read the
five-byte header, then dispatch. -/
def decodePacket (s : AdapterState) (data : List Nat) :
    Option (AdapterState × List Event × List LogEntry) := do
  let dataType ← readUInt8 data 0
  let _steps ← readUInt8 data 1
  let project ← readUInt8 data 2
  let msgClass ← readUInt8 data 3
  let commandKey ← readUInt8 data 4
  decodeDispatch s data dataType project msgClass commandKey

/-! ### Peripheral filter -/

/-- JS `hay.indexOf(needle) >= 0` on strings: some suffix of `hay` has
`needle` as a prefix. -/
def listContains (hay needle : List Char) : Bool :=
  match hay with
  | [] => needle.isPrefixOf ([] : List Char)
  | c :: t => needle.isPrefixOf (c :: t) || listContains t needle

def strContains (hay needle : String) : Bool :=
  listContains hay.data needle.data

/-- `validatePeripheral(peripheral)` (src/lib/MiniDroneBtAdapter.js:461) in
the default `droneFilter = ''` configuration (the non-empty-filter regex
branch is outside every claim). `none` models an `undefined` advertisement
field; JS truthiness makes the empty string falsy. The name test is
`localName.indexOf(prefix) >= 0`, i.e. substring containment. -/
def validatePeripheralEmptyFilter (localName manufacturerData : Option String) : Bool :=
  let localNameMatch :=
    match localName with
    | none => false
    | some nm => (nm != "") && DRONE_PREFIXES.any (fun p => strContains nm p)
  let manufacturerMatch :=
    match manufacturerData with
    | none => false
    | some m => (m != "") && MANUFACTURER_SERIALS.contains m
  localNameMatch || manufacturerMatch

/-- Modelled from the spec: the §4.4 `PeripheralFilter.matches` predicate as
worded ("the advertised name starts with any of a fixed allow-list of vendor
name prefixes, OR the manufacturer data exactly equals one of a fixed
allow-list"), for comparison with `validatePeripheralEmptyFilter`. -/
def specMatchesEmptyFilter (localName manufacturerData : Option String) : Bool :=
  (match localName with
   | none => false
   | some nm => DRONE_PREFIXES.any (fun p => p.data.isPrefixOf nm.data)) ||
  (match manufacturerData with
   | none => false
   | some m => MANUFACTURER_SERIALS.contains m)

/-! ### The `Drone` driver class (Drone.js, embedded JSDoc source) -/

/-- The mutable state of a `Drone` instance (Drone.js constructor). -/
structure DroneState where
  flightParams : FlightParams
  network : Option AdapterState
deriving DecidableEq

def initialDrone : DroneState := { flightParams := ⟨0, 0, 0, 0⟩, network := none }

/-- JS truthiness of the dynamic values we model. -/
def truthy : JsVal → Bool
  | .nullv => false
  | .undefv => false
  | .numv n => n != 0
  | .strv s => s != ""

/-- The `eventLoop` guard reads `this.network.flightStatusChange` (Drone.js
`eventLoop`). `MiniDroneBtAdapter` never assigns a property of that name —
the string `'flightStatusChange'` is used only as an event name in
`this.emit('flightStatusChange', ...)` — so the JS property read always
yields `undefined`. -/
def AdapterState.flightStatusChangeProp (_ : AdapterState) : JsVal := .undefv

/-- `Drone.eventLoop()` (Drone.js): one tick of the `setInterval` driver.
Returns the new drone state, the frames written and the events emitted. -/
def eventLoop (d : DroneState) : DroneState × List Frame × List Event :=
  match d.network with
  | none => (d, [], [])
  | some net =>
      if truthy net.flightStatusChangeProp then
        let r := writeFlightParams net d.flightParams
        ({ d with network := some r.1 }, r.2.1, r.2.2)
      else (d, [], [])

/-- `Drone.setFlightParams` (Drone.js): merge-update the cache.  Partial
updates merge in JS; a full params object simply replaces the cache. -/
def setFlightParams (d : DroneState) (fp : FlightParams) : DroneState :=
  { d with flightParams := fp }

/-! ### Operation sequences over the adapter -/

/-- One pilot-facing send operation (the step-correct writers; the
limit-setting writers `writeMaxAltitude`/`writeMaxTilt` are separate). -/
inductive PilotOp where
  | trim
  | takeoff
  | land
  | emergency
  | takePicture
  | animate (a : String)
  | flight (p : FlightParams)
deriving DecidableEq

def execOp (s : AdapterState) : PilotOp → AdapterState × List Frame × List Event
  | .trim => writeTrim s
  | .takeoff => writeTakeoff s
  | .land => writeLand s
  | .emergency => writeEmergency s
  | .takePicture => writeTakePicture s
  | .animate a => writeAnimation s a
  | .flight p => writeFlightParams s p

/-- Run a sequence of operations, collecting every frame handed to the BLE
layer in order. -/
def runOps : AdapterState → List PilotOp → AdapterState × List Frame
  | s, [] => (s, [])
  | s, op :: ops =>
      let r := execOp s op
      let rest := runOps r.1 ops
      (rest.1, r.2.1 ++ rest.2)

/-- The step bytes (byte index 1 of every frame) sent on channel `c`, in
order. -/
def channelStepBytes (frames : List Frame) (c : ChannelKey) : List Nat :=
  frames.filterMap (fun f => if f.channel = c then some (f.bytes.getD 1 0) else none)

/-- The `(project, msgClass, commandKey)` triples with a recognized payload
shape in `decodePacket`'s dispatch (battery, flight status, alert,
auto-takeoff flag, position, speed, speed-limit echoes, picture state,
altitude/tilt-limit echoes). -/
def recognizedTriple (p c k : Nat) : Bool :=
  (p == 0 && c == 5 && k == 1) ||
  (p == 2 && c == 18 && (k == 0 || k == 1)) ||
  (p == 2 && c == 3 && (k == 1 || k == 2 || k == 3)) ||
  (p == 2 && c == 5 && (k == 0 || k == 1)) ||
  (p == 2 && c == 7 && k == 1) ||
  (p == 2 && c == 9 && (k == 0 || k == 1))

/-- A signed 16-bit value as its two little-endian two's-complement bytes. -/
def int16LEPair (v : Int) : List Nat :=
  [(v % 65536).toNat % 256, (v % 65536).toNat / 256]

/-- Modelled from the spec: the §8 expected flight-params frame for
`{roll:10, pitch:-5, yaw:0, altitude:20}` at step 1, reading the claim's
bracket `[2,1,2,0,2,0,1,roll,pitch,yaw,altitude,0,0,0,0]` as a 19-byte
buffer, i.e. with each axis occupying two bytes as a little-endian int16. -/
def specFlightParamsLayout : List Nat :=
  [2, 1, 2, 0, 2, 0, 1] ++ int16LEPair 10 ++ int16LEPair (-5) ++
    int16LEPair 0 ++ int16LEPair 20 ++ [0, 0, 0, 0]

/-! ## Claim theorems -/

/-- C2 (code bug witness): the periodic flight loop never re-sends the flight
parameters.  Its guard reads `this.network.flightStatusChange`, a property
the adapter never assigns, so every tick returns early — no frame is written
and no event is emitted, whatever the adapter's state (in particular even
when a transport is connected and a flight-status update was received). -/
theorem C2_eventLoop_never_sends (d : DroneState) : eventLoop d = (d, [], []) := by
  cases hd : d.network with
  | none => simp [eventLoop, hd]
  | some net =>
      simp [eventLoop, hd, truthy, AdapterState.flightStatusChangeProp]

/-- C3 counterexample: on a fresh channel, `writeFlightParams` with
`{roll:10, pitch:-5, yaw:0, altitude:20}` does not produce the spec's
19-byte layout in which each axis occupies two bytes as a little-endian
int16 (the fields are written at consecutive offsets, so they overlap). -/
theorem C3_counterexample :
    (writeFlightParams (attachCharacteristics initialState) ⟨10, -5, 0, 20⟩).2.1 ≠
      [⟨ChannelKey.flightParamsKey, specFlightParamsLayout⟩] := by
  decide

/-- C3 (amended): the frame actually produced is
`[2,1,2,0,2,0,1,10,251,0,20,0,0,0,0,0,0,0,0]` — each axis is written with a
little-endian int16 write at consecutive offsets 7..10, so each write's high
byte is overwritten by the next field and only the low (two's-complement)
byte of each axis survives; the trailing bytes are zero. -/
theorem C3_flight_params_frame :
    (writeFlightParams (attachCharacteristics initialState) ⟨10, -5, 0, 20⟩).2.1 =
      [⟨ChannelKey.flightParamsKey,
        [2, 1, 2, 0, 2, 0, 1, 10, 251, 0, 20, 0, 0, 0, 0, 0, 0, 0, 0]⟩] := by
  decide

/-- C6: decoding a BatteryStateChanged frame (project 0, class 5, command 1)
sets `batteryLevel` to the byte at offset 6, emits exactly one
`batteryStatusChange` event, and leaves `flightStatus` and `alertStatus`
untouched. -/
theorem C6_battery_decode (d0 d1 d5 b : Nat) (rest : List Nat) (s : AdapterState) :
    decodePacket s (d0 :: d1 :: 0 :: 5 :: 1 :: d5 :: b :: rest) =
      some ({ s with batteryLevel := .numv b },
            [.batteryStatusChange (.numv b)],
            dataTypeLog d0 0 5 1 ++ [.commonDebug, .batteryLevelDebug b]) ∧
    ({ s with batteryLevel := JsVal.numv b } : AdapterState).flightStatus = s.flightStatus ∧
    ({ s with batteryLevel := JsVal.numv b } : AdapterState).alertStatus = s.alertStatus :=
  ⟨rfl, rfl, rfl⟩

/-- C8: a flight-status frame (project 2, class 3, command 1) with enum
index 2 at offset 6 emits `flightStatusChange "hovering"`, index 7 emits
`"initializing"`, and the out-of-range index 8 does not crash the decoder —
it stores and emits the JS `undefined` value. -/
theorem C8_flight_status_decode (d0 d1 d5 : Nat) (rest : List Nat) (s : AdapterState) :
    decodePacket s (d0 :: d1 :: 2 :: 3 :: 1 :: d5 :: 2 :: rest) =
      some ({ s with flightStatus := .strv "hovering" },
            [.flightStatusChange (.strv "hovering")],
            dataTypeLog d0 2 3 1 ++
              [.minidroneDebug, .flightStatusDebug (.strv "hovering") 2]) ∧
    decodePacket s (d0 :: d1 :: 2 :: 3 :: 1 :: d5 :: 7 :: rest) =
      some ({ s with flightStatus := .strv "initializing" },
            [.flightStatusChange (.strv "initializing")],
            dataTypeLog d0 2 3 1 ++
              [.minidroneDebug, .flightStatusDebug (.strv "initializing") 7]) ∧
    decodePacket s (d0 :: d1 :: 2 :: 3 :: 1 :: d5 :: 8 :: rest) =
      some ({ s with flightStatus := .undefv },
            [.flightStatusChange .undefv],
            dataTypeLog d0 2 3 1 ++
              [.minidroneDebug, .flightStatusDebug .undefv 8]) :=
  ⟨rfl, rfl, rfl⟩

/-- C1 counterexample: on the command channel, starting from a fresh counter
with a connected transport, the 256th consecutive send carries step byte 1,
not 0 — `write` resets the counter to 0 only after the frame stamped 255 has
already been built, and the next `createBuffer` pre-increments to 1, so the
value 0 never appears in a sent frame. -/
theorem C1_counterexample :
    (channelStepBytes (runOps (attachCharacteristics initialState)
        (List.replicate 256 PilotOp.trim)).2 .commandKey).getLast? = some 1 ∧
    (channelStepBytes (runOps (attachCharacteristics initialState)
        (List.replicate 256 PilotOp.trim)).2 .commandKey).getLast? ≠ some 0 := by
  exact ⟨by decide, by decide⟩

/-- C1 (amended): for each of the three channels, 255 consecutive sends from
a fresh counter produce step bytes 1..255 (never overflowing one byte); the
counter is then reset to 0 inside `write`, and the 256th send produces step
byte 1 (not 0). -/
theorem C1_step_sequence :
    channelStepBytes (runOps (attachCharacteristics initialState)
        (List.replicate 256 PilotOp.trim)).2 .commandKey =
      (List.range 255).map (fun i => i + 1) ++ [1] ∧
    channelStepBytes (runOps (attachCharacteristics initialState)
        (List.replicate 256 PilotOp.emergency)).2 .emergencyKey =
      (List.range 255).map (fun i => i + 1) ++ [1] ∧
    channelStepBytes (runOps (attachCharacteristics initialState)
        (List.replicate 256 (PilotOp.flight ⟨10, -5, 0, 20⟩))).2 .flightParamsKey =
      (List.range 255).map (fun i => i + 1) ++ [1] := by
  exact ⟨by decide, by decide, by decide⟩

/-- C7 counterexample: with no transport attached, 256 consecutive command
sends are all skipped by `write`, but `createBuffer` still increments the
command channel's counter each time, driving it to 256 — outside [0, 255]. -/
theorem C7_counterexample :
    (runOps initialState (List.replicate 256 PilotOp.trim)).1.stepsCmd = 256 ∧
    ¬ (runOps initialState (List.replicate 256 PilotOp.trim)).1.stepsCmd ≤ 255 := by
  exact ⟨by decide, by decide⟩

/-- C9 counterexample: from the reachable state obtained by 255 command sends
with no transport (command counter 255) followed by attaching the transport,
a `writeMaxAltitude` call does change the command channel's counter — the
`write` on `COMMAND_KEY` resets it from 255 to 0. -/
theorem C9_counterexample :
    (attachCharacteristics
        ((runOps initialState (List.replicate 255 PilotOp.trim)).1)).stepsCmd = 255 ∧
    (writeMaxAltitude
        (attachCharacteristics
          ((runOps initialState (List.replicate 255 PilotOp.trim)).1)) 0).1.stepsCmd = 0 := by
  exact ⟨by decide, by decide⟩

/-- A `writeInt16LE` with an in-range value performs the splice. -/
theorem writeInt16LE_in_range (buf : List Nat) (v : Int) (off : Nat)
    (h1 : -32768 ≤ v) (h2 : v ≤ 32767) :
    writeInt16LE buf v off = some (setInt16LE buf v off) := by
  unfold writeInt16LE
  rw [if_neg]
  push_neg
  exact ⟨by omega, by omega⟩

/-- A `writeInt16LE` with a too-large value throws. -/
theorem writeInt16LE_out_of_range (buf : List Nat) (v : Int) (off : Nat)
    (h : 32767 < v) : writeInt16LE buf v off = none := by
  unfold writeInt16LE
  rw [if_pos]
  exact Or.inr h

/-- The limit-frame build succeeds whenever the stamped step passes Node's
int16 range check. -/
theorem maxAltitudeBuffer_isSome (n ab : Nat) (h : n ≤ 32767) :
    ∃ bb, maxAltitudeBuffer n ab = some bb := by
  have hn1 : -32768 ≤ ((n : Int)) := by omega
  have hn2 : ((n : Int)) ≤ 32767 := by omega
  simp [maxAltitudeBuffer, writeInt16LE_in_range, hn1, hn2,
    MD_CLASSES_PILOTING_SETTINGS, MD_METHODS_MAX_ALTITUDE]

theorem maxTiltBuffer_isSome (n tb : Nat) (h : n ≤ 32767) :
    ∃ bb, maxTiltBuffer n tb = some bb := by
  have hn1 : -32768 ≤ ((n : Int)) := by omega
  have hn2 : ((n : Int)) ≤ 32767 := by omega
  simp [maxTiltBuffer, writeInt16LE_in_range, hn1, hn2,
    MD_CLASSES_PILOTING_SETTINGS, MD_METHODS_MAX_TILT]

/-- The error path is modelled faithfully: once the flight-params counter
(which the limit writers never reset) has passed 32766, the next limit
write's step stamp fails `writeInt16LE`'s range check — the `++` increment
persists, the exception propagates, and no frame is written nor event
emitted. -/
theorem limit_write_step_overflow_throws (s : AdapterState) (ab tb : Nat)
    (h : 32767 < s.stepsFp + 1) :
    ((writeMaxAltitude s ab).1.stepsFp = s.stepsFp + 1 ∧
     (writeMaxAltitude s ab).2 = none) ∧
    ((writeMaxTilt s tb).1.stepsFp = s.stepsFp + 1 ∧
     (writeMaxTilt s tb).2 = none) := by
  have hv : (32767 : Int) < ((s.stepsFp : Int)) + 1 := by omega
  have hna : maxAltitudeBuffer (s.stepsFp + 1) ab = none := by
    simp [maxAltitudeBuffer, writeInt16LE_in_range, writeInt16LE_out_of_range, hv]
  have hnt : maxTiltBuffer (s.stepsFp + 1) tb = none := by
    simp [maxTiltBuffer, writeInt16LE_in_range, writeInt16LE_out_of_range, hv]
  exact ⟨by simp [writeMaxAltitude, hna], by simp [writeMaxTilt, hnt]⟩

/-- C9 (amended): whenever a transport is attached, the command counter is
below 255, and the flight-params counter is below 32767 (so the step stamp
passes Node's int16 range check rather than throwing), `writeMaxAltitude`
and `writeMaxTilt` increment the flight-params channel's counter, leave the
command (and emergency) counters unchanged, and write their single frame on
the command channel — so no flight-params-channel frame is sent while the
flight-params counter advances. -/
theorem C9_limit_writes_use_fp_counter (s : AdapterState) (ab tb : Nat)
    (hchars : s.charsPresent = true) (hcmd : s.stepsCmd < 255)
    (hfp : s.stepsFp < 32767) :
    ((writeMaxAltitude s ab).1.stepsFp = s.stepsFp + 1 ∧
     (writeMaxAltitude s ab).1.stepsCmd = s.stepsCmd ∧
     (writeMaxAltitude s ab).1.stepsEmg = s.stepsEmg ∧
     ∃ bytes, (writeMaxAltitude s ab).2 =
       some ([⟨ChannelKey.commandKey, bytes⟩], [Event.maxAltitudeChange ab])) ∧
    ((writeMaxTilt s tb).1.stepsFp = s.stepsFp + 1 ∧
     (writeMaxTilt s tb).1.stepsCmd = s.stepsCmd ∧
     (writeMaxTilt s tb).1.stepsEmg = s.stepsEmg ∧
     ∃ bytes, (writeMaxTilt s tb).2 =
       some ([⟨ChannelKey.commandKey, bytes⟩], [Event.maxTiltChange tb])) := by
  obtain ⟨ba, hba⟩ := maxAltitudeBuffer_isSome (s.stepsFp + 1) ab (by omega)
  obtain ⟨bt, hbt⟩ := maxTiltBuffer_isSome (s.stepsFp + 1) tb (by omega)
  have hne : ¬ 255 ≤ s.stepsCmd := Nat.not_le.mpr hcmd
  constructor
  · refine ⟨?_, ?_, ?_, ⟨ba, ?_⟩⟩ <;>
      simp [writeMaxAltitude, hba, write, chanStep, hchars, hne]
  · refine ⟨?_, ?_, ?_, ⟨bt, ?_⟩⟩ <;>
      simp [writeMaxTilt, hbt, write, chanStep, hchars, hne]

/-- Witness for C9 at the fresh connected adapter state. -/
theorem C9_limit_writes_use_fp_counter_witness :
    (attachCharacteristics initialState).charsPresent = true ∧
    (attachCharacteristics initialState).stepsCmd < 255 ∧
    (attachCharacteristics initialState).stepsFp < 32767 ∧
    (((writeMaxAltitude (attachCharacteristics initialState) 0).1.stepsFp =
        (attachCharacteristics initialState).stepsFp + 1 ∧
      (writeMaxAltitude (attachCharacteristics initialState) 0).1.stepsCmd =
        (attachCharacteristics initialState).stepsCmd ∧
      (writeMaxAltitude (attachCharacteristics initialState) 0).1.stepsEmg =
        (attachCharacteristics initialState).stepsEmg ∧
      ∃ bytes, (writeMaxAltitude (attachCharacteristics initialState) 0).2 =
        some ([⟨ChannelKey.commandKey, bytes⟩], [Event.maxAltitudeChange 0])) ∧
     ((writeMaxTilt (attachCharacteristics initialState) 0).1.stepsFp =
        (attachCharacteristics initialState).stepsFp + 1 ∧
      (writeMaxTilt (attachCharacteristics initialState) 0).1.stepsCmd =
        (attachCharacteristics initialState).stepsCmd ∧
      (writeMaxTilt (attachCharacteristics initialState) 0).1.stepsEmg =
        (attachCharacteristics initialState).stepsEmg ∧
      ∃ bytes, (writeMaxTilt (attachCharacteristics initialState) 0).2 =
        some ([⟨ChannelKey.commandKey, bytes⟩], [Event.maxTiltChange 0]))) :=
  ⟨rfl, by decide, by decide,
   C9_limit_writes_use_fp_counter (attachCharacteristics initialState) 0 0 rfl
     (by decide) (by decide)⟩

/-- The diagnostic log lines produced by `decodeDispatch` on a triple with no
recognized payload shape. -/
def unknownLogs (a p c k : Nat) : List LogEntry :=
  dataTypeLog a p c k ++
    (if p = 0 then
       if c = 30 then
         if k = 0 then [.commonDebug, .runIdChangedDebug]
         else [.commonDebug, .packetImplMissing a p c k]
       else [.commonDebug, .packetImplMissing a p c k]
     else if p = 1 then [.ardrone3Info]
     else if p = 2 then [.minidroneDebug, .packetImplMissing a p c k]
     else [.projectMissing a p c k])

/-- On an unrecognized triple, the dispatch returns the unchanged state, no
events, and only diagnostic log lines. -/
theorem decodeDispatch_unknown (s : AdapterState) (data : List Nat)
    (a p c k : Nat) (h : recognizedTriple p c k = false) :
    decodeDispatch s data a p c k = some (s, [], unknownLogs a p c k) := by
  by_cases hp0 : p = 0
  · subst hp0
    by_cases hc5 : c = 5
    · subst hc5
      have hk1 : ¬ k = 1 := by rintro rfl; exact absurd h (by decide)
      simp [decodeDispatch, unknownLogs, hk1]
    · by_cases hc30 : c = 30
      · subst hc30
        by_cases hk0 : k = 0
        · subst hk0
          simp [decodeDispatch, unknownLogs]
        · simp [decodeDispatch, unknownLogs, hc5, hk0]
      · simp [decodeDispatch, unknownLogs, hc5, hc30]
  · by_cases hp1 : p = 1
    · subst hp1
      simp [decodeDispatch, unknownLogs]
    · by_cases hp2 : p = 2
      · subst hp2
        by_cases hc18 : c = 18
        · subst hc18
          have hk0 : ¬ k = 0 := by rintro rfl; exact absurd h (by decide)
          have hk1 : ¬ k = 1 := by rintro rfl; exact absurd h (by decide)
          simp [decodeDispatch, unknownLogs, hk0, hk1]
        · by_cases hc3 : c = 3
          · subst hc3
            have hk1 : ¬ k = 1 := by rintro rfl; exact absurd h (by decide)
            have hk2 : ¬ k = 2 := by rintro rfl; exact absurd h (by decide)
            have hk3 : ¬ k = 3 := by rintro rfl; exact absurd h (by decide)
            simp [decodeDispatch, unknownLogs, hk1, hk2, hk3]
          · by_cases hc5m : c = 5
            · subst hc5m
              have hk0 : ¬ k = 0 := by rintro rfl; exact absurd h (by decide)
              have hk1 : ¬ k = 1 := by rintro rfl; exact absurd h (by decide)
              simp [decodeDispatch, unknownLogs, hk0, hk1]
            · by_cases hc7 : c = 7
              · subst hc7
                have hk1 : ¬ k = 1 := by rintro rfl; exact absurd h (by decide)
                simp [decodeDispatch, unknownLogs, hk1]
              · by_cases hc9 : c = 9
                · subst hc9
                  have hk0 : ¬ k = 0 := by rintro rfl; exact absurd h (by decide)
                  have hk1 : ¬ k = 1 := by rintro rfl; exact absurd h (by decide)
                  simp [decodeDispatch, unknownLogs, hk0, hk1]
                · simp [decodeDispatch, unknownLogs, hc18, hc3, hc5m, hc7, hc9]
      · simp [decodeDispatch, unknownLogs, hp0, hp1, hp2]

/-- C5: a frame of at least 5 bytes whose `(project, class, command)` triple
has no recognized payload shape never fails (`some`), emits no event, leaves
the adapter state completely unchanged, and produces at least one diagnostic
log line; decoding being a pure per-frame function, subsequent frames decode
as before. -/
theorem C5_unknown_triple_noop (a b p c k : Nat) (rest : List Nat)
    (s : AdapterState) (h : recognizedTriple p c k = false) :
    ∃ logs, decodePacket s (a :: b :: p :: c :: k :: rest) = some (s, [], logs) ∧
      logs ≠ [] := by
  refine ⟨unknownLogs a p c k, ?_, ?_⟩
  · have hd : decodePacket s (a :: b :: p :: c :: k :: rest) =
        decodeDispatch s (a :: b :: p :: c :: k :: rest) a p c k := rfl
    rw [hd]
    exact decodeDispatch_unknown s (a :: b :: p :: c :: k :: rest) a p c k h
  · unfold unknownLogs
    split_ifs <;> simp

/-- Witness for C5 at the concrete unknown triple (0, 4, 0). -/
theorem C5_unknown_triple_noop_witness :
    ∃ logs, decodePacket initialState [2, 0, 0, 4, 0] =
      some (initialState, [], logs) ∧ logs ≠ [] :=
  C5_unknown_triple_noop 2 0 0 4 0 [] initialState (by decide)

/-- `listContains` decides contiguous-substring occurrence, the semantics of
JS `indexOf(...) >= 0`. -/
theorem listContains_iff (hay needle : List Char) :
    listContains hay needle = true ↔ ∃ l r, hay = l ++ needle ++ r := by
  induction hay with
  | nil =>
      simp only [listContains, List.isPrefixOf_iff_prefix, List.prefix_nil]
      constructor
      · rintro rfl
        exact ⟨[], [], rfl⟩
      · rintro ⟨l, r, hl⟩
        have h1 := List.append_eq_nil.mp hl.symm
        exact (List.append_eq_nil.mp h1.1).2
  | cons ch t ih =>
      simp only [listContains, Bool.or_eq_true, List.isPrefixOf_iff_prefix, ih]
      constructor
      · rintro (hpre | ⟨l, r, hl⟩)
        · obtain ⟨r, hr⟩ := hpre
          exact ⟨[], r, by simp [hr]⟩
        · exact ⟨ch :: l, r, by simp [hl]⟩
      · rintro ⟨l, r, hl⟩
        cases l with
        | nil =>
            left
            exact ⟨r, by simpa using hl.symm⟩
        | cons x l' =>
            right
            simp only [List.cons_append, List.cons.injEq] at hl
            exact ⟨l', r, hl.2⟩

theorem strContains_iff (nm p : String) :
    strContains nm p = true ↔ ∃ l r, nm.data = l ++ p.data ++ r :=
  listContains_iff nm.data p.data

theorem serials_mem_ne_empty : ∀ m ∈ MANUFACTURER_SERIALS, m ≠ "" := by decide

theorem prefixes_data_ne_nil : ∀ p ∈ DRONE_PREFIXES, p.data ≠ [] := by decide

/-- The manufacturer-data side of the filter is exactly list membership. -/
theorem manuMatch_iff (m : String) :
    ((m != "") && MANUFACTURER_SERIALS.contains m) = true ↔
      m ∈ MANUFACTURER_SERIALS := by
  rw [Bool.and_eq_true, bne_iff_ne]
  constructor
  · rintro ⟨-, h⟩
    exact List.elem_iff.mp h
  · intro hm
    exact ⟨serials_mem_ne_empty m hm, List.elem_iff.mpr hm⟩

/-- The advertised-name side of the filter is exactly substring containment
of one of the vendor prefixes. -/
theorem nameMatch_iff (nm : String) :
    ((nm != "") && DRONE_PREFIXES.any (fun p => strContains nm p)) = true ↔
      ∃ p ∈ DRONE_PREFIXES, ∃ l r, nm.data = l ++ p.data ++ r := by
  rw [Bool.and_eq_true, List.any_eq_true]
  constructor
  · rintro ⟨-, p, hp, hcont⟩
    exact ⟨p, hp, (strContains_iff nm p).mp hcont⟩
  · rintro ⟨p, hp, l, r, hdecomp⟩
    refine ⟨?_, p, hp, (strContains_iff nm p).mpr ⟨l, r, hdecomp⟩⟩
    rw [bne_iff_ne]
    rintro rfl
    have h0 : (l ++ p.data) ++ r = [] := by simpa using hdecomp.symm
    have h1 := List.append_eq_nil.mp h0
    exact prefixes_data_ne_nil p hp (List.append_eq_nil.mp h1.1).2

/-- C4 counterexample: with an empty filter, the advertised name `"abcRS_1"`
(which contains `"RS_"` but does not start with any vendor prefix, and has no
matching manufacturer data) is accepted by the code's filter, while the
spec's starts-with predicate rejects it. -/
theorem C4_counterexample :
    validatePeripheralEmptyFilter (some "abcRS_1") none = true ∧
    specMatchesEmptyFilter (some "abcRS_1") none = false := by
  exact ⟨by decide, by decide⟩

/-- C4 (amended): with an empty filter the predicate returns true iff the
advertised name contains one of the fixed vendor prefixes as a substring
(not necessarily at the start) or the manufacturer data exactly equals one of
the fixed serials; in particular `"Mambo_12AB"` matches and
`"SomeRandomBLE"` without matching manufacturer data does not. -/
theorem C4_filter_characterization (localName manufacturerData : Option String) :
    (validatePeripheralEmptyFilter localName manufacturerData = true ↔
      (∃ nm, localName = some nm ∧
        ∃ p ∈ DRONE_PREFIXES, ∃ l r, nm.data = l ++ p.data ++ r) ∨
      (∃ m, manufacturerData = some m ∧ m ∈ MANUFACTURER_SERIALS)) ∧
    validatePeripheralEmptyFilter (some "Mambo_12AB") none = true ∧
    validatePeripheralEmptyFilter (some "SomeRandomBLE") none = false := by
  refine ⟨?_, by decide, by decide⟩
  cases localName with
  | none =>
      cases manufacturerData with
      | none => simp [validatePeripheralEmptyFilter]
      | some m =>
          simp [validatePeripheralEmptyFilter, manuMatch_iff m]
          intro hm
          exact serials_mem_ne_empty m hm
  | some nm =>
      cases manufacturerData with
      | none => simp [validatePeripheralEmptyFilter, nameMatch_iff nm]
      | some m =>
          simp only [validatePeripheralEmptyFilter, Bool.or_eq_true,
            nameMatch_iff nm, manuMatch_iff m, Option.some.injEq]
          constructor
          · rintro (hname | hmanu)
            · exact Or.inl ⟨nm, rfl, hname⟩
            · exact Or.inr ⟨m, rfl, hmanu⟩
          · rintro (⟨nm', hnm, hname⟩ | ⟨m', hm, hmanu⟩)
            · cases hnm
              exact Or.inl hname
            · cases hm
              exact Or.inr hmanu

/-! ### Step-counter invariants (C7) -/

/-- Invariant maintained while a transport is attached: every channel
counter stays at or below 254 at operation boundaries. -/
def goodState (s : AdapterState) : Prop :=
  s.charsPresent = true ∧ ∀ c, chanStep s c ≤ 254

/-- How a single operation affects the counters and the sent frames: either
nothing is sent and every counter is unchanged, or exactly one frame goes
out on some channel, stamped with that channel's incremented counter
(masked to a byte), the counter is reset to 0 when the incremented value
reaches 255, and the other channels are untouched. -/
def StepEffect (s s' : AdapterState) (fs : List Frame) : Prop :=
  s'.charsPresent = s.charsPresent ∧
  ((fs = [] ∧ ∀ c, chanStep s' c = chanStep s c) ∨
   (∃ ch bytes, fs = [⟨ch, bytes⟩] ∧
      bytes.getD 1 0 = (chanStep s ch + 1) % 256 ∧
      chanStep s' ch = (if 255 ≤ chanStep s ch + 1 then 0 else chanStep s ch + 1) ∧
      ∀ c, c ≠ ch → chanStep s' c = chanStep s c))

theorem charsPresent_setChanStep (s : AdapterState) (c : ChannelKey) (n : Nat) :
    (setChanStep s c n).charsPresent = s.charsPresent := by
  cases c <;> rfl

theorem chanStep_setChanStep_self (s : AdapterState) (c : ChannelKey) (n : Nat) :
    chanStep (setChanStep s c n) c = n := by
  cases c <;> rfl

theorem chanStep_setChanStep_ne (s : AdapterState) (c : ChannelKey) (n : Nat)
    (c' : ChannelKey) (h : c' ≠ c) :
    chanStep (setChanStep s c n) c' = chanStep s c' := by
  cases c <;> cases c' <;> first
    | rfl
    | exact absurd rfl h

theorem createBufferAndWrite_eq (s : AdapterState) (ch : ChannelKey)
    (args : List Nat) (h : s.charsPresent = true) :
    createBufferAndWrite s ch args =
      ((if 255 ≤ chanStep s ch + 1
          then setChanStep (setChanStep s ch (chanStep s ch + 1)) ch 0
          else setChanStep s ch (chanStep s ch + 1)),
       ([⟨ch, [MD_DATA_TYPES_DATA, (chanStep s ch + 1) % 256, MD_DEVICE_TYPE] ++ args⟩],
        ([] : List Event))) := by
  unfold createBufferAndWrite createBuffer write
  simp only [charsPresent_setChanStep, h, chanStep_setChanStep_self]
  simp

theorem createBufferAndWrite_stepEffect (s : AdapterState) (ch : ChannelKey)
    (args : List Nat) (h : s.charsPresent = true) :
    StepEffect s (createBufferAndWrite s ch args).1
      (createBufferAndWrite s ch args).2.1 := by
  rw [createBufferAndWrite_eq s ch args h]
  refine ⟨?_, Or.inr ⟨ch, _, rfl, rfl, ?_, ?_⟩⟩
  · by_cases hge : 255 ≤ chanStep s ch + 1
    · simp [hge, charsPresent_setChanStep]
    · simp [hge, charsPresent_setChanStep]
  · by_cases hge : 255 ≤ chanStep s ch + 1
    · simp [hge, chanStep_setChanStep_self]
    · simp [hge, chanStep_setChanStep_self]
  · intro c hc
    by_cases hge : 255 ≤ chanStep s ch + 1
    · simp [hge, chanStep_setChanStep_ne _ _ _ _ hc]
    · simp [hge, chanStep_setChanStep_ne _ _ _ _ hc]

/-- Byte 1 of the flight-params buffer is the (byte-masked) stamped step. -/
theorem flightParamsBuffer_getD1 (n : Nat) (fp : FlightParams) :
    (flightParamsBuffer n fp).getD 1 0 = n % 256 := by
  simp [flightParamsBuffer, setInt16LE, writeFloatLEBits,
    List.getD_eq_getElem?_getD, List.getElem?_set_ne, List.getElem?_set_eq_of_lt]
  omega

theorem write_eq_of_connected (s : AdapterState) (uuid : ChannelKey)
    (buffer : List Nat) (h : s.charsPresent = true) :
    write s uuid buffer =
      ((if 255 ≤ chanStep s uuid then setChanStep s uuid 0 else s),
       [⟨uuid, buffer⟩]) := by
  unfold write
  rw [h]
  simp

theorem writeFlightParams_eq (s : AdapterState) (fp : FlightParams)
    (h : s.charsPresent = true) :
    writeFlightParams s fp =
      ((if 255 ≤ s.stepsFp + 1
          then setChanStep { s with flightParams := fp, stepsFp := s.stepsFp + 1 }
                 .flightParamsKey 0
          else { s with flightParams := fp, stepsFp := s.stepsFp + 1 }),
       ([⟨.flightParamsKey, flightParamsBuffer (s.stepsFp + 1) fp⟩],
        [Event.flightParamChange fp])) := by
  simp only [writeFlightParams]
  have h2 : ({ s with flightParams := fp, stepsFp := s.stepsFp + 1 } :
      AdapterState).charsPresent = true := h
  rw [write_eq_of_connected _ _ _ h2]
  rfl

theorem writeFlightParams_stepEffect (s : AdapterState) (fp : FlightParams)
    (h : s.charsPresent = true) :
    StepEffect s (writeFlightParams s fp).1 (writeFlightParams s fp).2.1 := by
  rw [writeFlightParams_eq s fp h]
  refine ⟨?_, Or.inr ⟨.flightParamsKey, _, rfl, flightParamsBuffer_getD1 _ fp, ?_, ?_⟩⟩
  · by_cases hge : 255 ≤ s.stepsFp + 1
    · simp [hge, charsPresent_setChanStep]
    · simp [hge]
  · by_cases hge : 255 ≤ s.stepsFp + 1
    · simp only [if_pos hge]
      rw [chanStep_setChanStep_self]
      simp [chanStep, hge]
    · simp only [if_neg hge]
      simp [chanStep, hge]
  · intro c hc
    by_cases hge : 255 ≤ s.stepsFp + 1
    · simp only [if_pos hge]
      rw [chanStep_setChanStep_ne _ _ _ _ hc]
      cases c with
      | flightParamsKey => exact absurd rfl hc
      | commandKey => rfl
      | emergencyKey => rfl
    · simp only [if_neg hge]
      cases c with
      | flightParamsKey => exact absurd rfl hc
      | commandKey => rfl
      | emergencyKey => rfl

theorem execOp_stepEffect (s : AdapterState) (op : PilotOp)
    (h : s.charsPresent = true) :
    StepEffect s (execOp s op).1 (execOp s op).2.1 := by
  cases op with
  | trim => exact createBufferAndWrite_stepEffect s _ _ h
  | takeoff => exact createBufferAndWrite_stepEffect s _ _ h
  | land => exact createBufferAndWrite_stepEffect s _ _ h
  | emergency => exact createBufferAndWrite_stepEffect s _ _ h
  | takePicture => exact createBufferAndWrite_stepEffect s _ _ h
  | animate a =>
      cases ha : animations a with
      | none =>
          refine ⟨?_, Or.inl ⟨?_, ?_⟩⟩ <;> simp [execOp, writeAnimation, ha]
      | some code =>
          have heff := createBufferAndWrite_stepEffect s .commandKey
            [MD_CLASSES_ANIMATION, MD_METHODS_FLIP, 0x00, code, 0x00, 0x00, 0x00] h
          simpa [execOp, writeAnimation, ha] using heff
  | flight fp => exact writeFlightParams_stepEffect s fp h

/-- Every element of the head (if any) of the step-byte list continues the
counter: it equals the counter's successor. -/
def headOk (n : Nat) (l : List Nat) : Prop :=
  ∀ y ∈ l.head?, y = n + 1

theorem runOps_spec (ops : List PilotOp) (s : AdapterState) (hs : goodState s) :
    goodState (runOps s ops).1 ∧
    ∀ c, List.Chain' (fun a b => a ≠ b) (channelStepBytes (runOps s ops).2 c) ∧
      headOk (chanStep s c) (channelStepBytes (runOps s ops).2 c) := by
  induction ops generalizing s with
  | nil =>
      exact ⟨hs, fun c => ⟨List.chain'_nil, by simp [runOps, channelStepBytes, headOk]⟩⟩
  | cons op ops ih =>
      obtain ⟨hcp, heff⟩ := execOp_stepEffect s op hs.1
      rcases heff with ⟨hfs, hsteps⟩ | ⟨ch, bytes, hfs, hbyte, hstep, hother⟩
      · have hgood1 : goodState (execOp s op).1 :=
          ⟨by rw [hcp]; exact hs.1, fun c => by rw [hsteps c]; exact hs.2 c⟩
        obtain ⟨hg, hrest⟩ := ih (execOp s op).1 hgood1
        refine ⟨by simpa [runOps] using hg, fun c => ?_⟩
        have hcb : channelStepBytes (runOps s (op :: ops)).2 c =
            channelStepBytes (runOps (execOp s op).1 ops).2 c := by
          simp [runOps, hfs]
        obtain ⟨hch, hh⟩ := hrest c
        rw [hsteps c] at hh
        exact ⟨by rw [hcb]; exact hch, by rw [hcb]; exact hh⟩
      · have hle : chanStep s ch + 1 ≤ 255 := by
          have := hs.2 ch
          omega
        have hbyteval : bytes.getD 1 0 = chanStep s ch + 1 := by
          rw [hbyte]
          exact Nat.mod_eq_of_lt (by omega)
        have hgood1 : goodState (execOp s op).1 := by
          refine ⟨by rw [hcp]; exact hs.1, fun c => ?_⟩
          by_cases hc : c = ch
          · subst hc
            rw [hstep]
            split
            · omega
            · omega
          · rw [hother c hc]
            exact hs.2 c
        obtain ⟨hg, hrest⟩ := ih (execOp s op).1 hgood1
        refine ⟨by simpa [runOps] using hg, fun c => ?_⟩
        obtain ⟨hch, hh⟩ := hrest c
        by_cases hc : ch = c
        · subst hc
          have hcb : channelStepBytes (runOps s (op :: ops)).2 ch =
              bytes.getD 1 0 :: channelStepBytes (runOps (execOp s op).1 ops).2 ch := by
            simp [runOps, hfs, channelStepBytes]
          rw [hcb]
          constructor
          · rw [List.chain'_cons']
            refine ⟨fun y hy => ?_, hch⟩
            show bytes.getD 1 0 ≠ y
            have hy' := hh y hy
            rw [hstep] at hy'
            rw [hbyteval, hy']
            split
            · omega
            · omega
          · intro y hy
            simp only [List.head?_cons, Option.mem_def, Option.some.injEq] at hy
            rw [← hy]
            exact hbyteval
        · have hcb : channelStepBytes (runOps s (op :: ops)).2 c =
              channelStepBytes (runOps (execOp s op).1 ops).2 c := by
            simp [runOps, hfs, channelStepBytes, hc]
          rw [hcb]
          refine ⟨hch, ?_⟩
          rw [hother c (fun he => hc he.symm)] at hh
          exact hh

/-- C7 (amended): with a transport attached throughout and operations drawn
from the step-correct senders (piloting commands, animations, flight-params
— the limit-setting writers, which stamp one channel and send on another,
excluded), every channel counter stays within [0, 255] after every operation
sequence, and consecutive frames on a channel never carry the same step
byte. -/
theorem C7_counters_bounded_and_steps_distinct (ops : List PilotOp) (c : ChannelKey) :
    chanStep (runOps (attachCharacteristics initialState) ops).1 c ≤ 255 ∧
    List.Chain' (fun a b => a ≠ b)
      (channelStepBytes (runOps (attachCharacteristics initialState) ops).2 c) := by
  have hinit : goodState (attachCharacteristics initialState) := by
    refine ⟨rfl, fun c' => ?_⟩
    cases c' <;> decide
  have h := runOps_spec ops (attachCharacteristics initialState) hinit
  exact ⟨le_trans (h.1.2 c) (by omega), (h.2 c).1⟩

end MiniDrone
